import Mathlib

/-!
Shallow embedding of the cashu-payment-backend quote lifecycle core:
the durable quote store (`src/db.rs`), the error taxonomy (`src/error.rs`),
the quote data model (`src/types.rs`) and the three HTTP handlers
(`src/pos_server.rs`).  External collaborators (the cdk token-protocol
library's unit and identifier parsers, the wallet, proof redemption) are
modelled as explicit parameters or as small spec-modelled parsers, since
their code is not part of this repository.
-/

deriving instance DecidableEq for Except

namespace CashuPos

/-- Quote lifecycle state, from `src/types.rs` (`QuoteState`). -/
inductive QuoteState where
  | Unpaid
  | Paid
deriving DecidableEq, Repr

/-- Modelled from the spec: the external token-protocol library's currency
unit type (`cdk::nuts::CurrencyUnit`, not under `src/`): an enumerated unit
with a custom fallback. -/
inductive CurrencyUnit where
  | Sat
  | Msat
  | Usd
  | Eur
  | Custom (s : String)
deriving DecidableEq, Repr

/-- Modelled from the spec: the external library's currency-unit parsing
(string to enumerated unit); recognised names map to their variant and any
other string becomes a custom unit, so parsing itself never fails. -/
def CurrencyUnit.from_str (s : String) : CurrencyUnit :=
  if s = "sat" then .Sat
  else if s = "msat" then .Msat
  else if s = "usd" then .Usd
  else if s = "eur" then .Eur
  else .Custom s

/-- Hexadecimal digit test, for the identifier format. -/
def isHexDigit (c : Char) : Bool :=
  c.isDigit || (('a' ≤ c && c ≤ 'f') || ('A' ≤ c && c ≤ 'F'))

/-- One character of the hyphenated UUID format: hyphens at positions
8, 13, 18 and 23, hex digits elsewhere. -/
def uuidCharOk (i : Nat) (c : Char) : Bool :=
  if i = 8 || i = 13 || i = 18 || i = 23 then c = '-' else isHexDigit c

/-- Modelled from the spec: well-formedness of an identifier string
(`uuid::Uuid`, not under `src/`): 36 characters in 8-4-4-4-12 hyphenated
hexadecimal form. -/
def isUuidString (s : String) : Bool :=
  s.length = 36 && (s.toList.enum.all fun p => uuidCharOk p.1 p.2)

/-- Identifiers are carried as their canonical string form. -/
abbrev Uuid := String

/-- Modelled from the spec: identifier parsing (`Uuid::from_str`), failing
on malformed input. -/
def Uuid.from_str (s : String) : Option Uuid :=
  if isUuidString s then some s else none

/-- The central entity, from `src/types.rs` (`QuoteInfo`). -/
structure QuoteInfo where
  id : Uuid
  amount : Nat
  state : QuoteState
  unit : CurrencyUnit
deriving DecidableEq, Repr

/-- The durable quote store (`src/db.rs`): one table keyed by identifier.
Modelled as an association list with overwrite-on-insert, matching the
redb table's key-value semantics. -/
abbrev Db := List (Uuid × QuoteInfo)

/-- One read transaction: `Db::get_quote`.  `none` models the
`Unknown quote` error. -/
def Db.get_quote : Db → Uuid → Option QuoteInfo
  | [], _ => none
  | (k, v) :: rest, id => if k = id then some v else Db.get_quote rest id

/-- Key-value insert with overwrite, the semantics of the redb
`Table::insert` used by `add_quote` and `update_quote_state`. -/
def Db.insert_row (id : Uuid) (q : QuoteInfo) : Db → Db
  | [] => [(id, q)]
  | (k, v) :: rest =>
      if k = id then (id, q) :: rest else (k, v) :: Db.insert_row id q rest

/-- One write transaction: `Db::add_quote`, keyed by the quote's own id. -/
def Db.add_quote (db : Db) (q : QuoteInfo) : Db :=
  Db.insert_row q.id q db

/-- One write transaction: `Db::update_quote_state`.  Reads the current
quote (failing if unknown), writes it back with the new state — with no
check of the prior state — and returns the pre-transition quote. -/
def Db.update_quote_state (db : Db) (id : Uuid) (st : QuoteState) :
    Option (Db × QuoteInfo) :=
  match db.get_quote id with
  | none => none
  | some q => some (Db.insert_row id { q with state := st } db, q)

/-- The error taxonomy, from `src/error.rs` (`PosError`). -/
inductive PosError where
  | InvalidUuid (id : String)
  | QuoteNotFound (id : Uuid)
  | InvalidChannelSize (size min max : Nat)
  | UnsupportedMint (mint : String)
  | UnsupportedCurrencyUnit (given : String) (allowed : List CurrencyUnit)
  | InvalidQuoteState (id : Uuid) (state : QuoteState)
  | InsufficientPayment (expected received : Nat)
  | DatabaseError (msg : String)
  | ChannelOpenError (msg : String)
  | WalletError (msg : String)
  | ProofVerificationError (msg : String)
  | InternalError (msg : String)
deriving DecidableEq, Repr

/-- HTTP status mapping, from `PosError::into_response` in `src/error.rs`. -/
def PosError.status : PosError → Nat
  | .InvalidUuid _ => 400
  | .InvalidChannelSize _ _ _ => 400
  | .UnsupportedMint _ => 400
  | .UnsupportedCurrencyUnit _ _ => 400
  | .InvalidQuoteState _ _ => 400
  | .InsufficientPayment _ _ => 400
  | .QuoteNotFound _ => 404
  | .DatabaseError _ => 500
  | .ChannelOpenError _ => 500
  | .WalletError _ => 500
  | .ProofVerificationError _ => 500
  | .InternalError _ => 500

/-- Decimal value of a digit string. -/
def digitsToNat (cs : List Char) : Nat :=
  cs.foldl (fun acc c => acc * 10 + (c.toNat - 48)) 0

/-- Rust `str::parse::<u64>`: optional leading plus sign, one or more
decimal digits, value within the 64-bit range. -/
def parseU64 (s : String) : Option Nat :=
  let cs := s.toList
  let digits := if cs.head? = some '+' then cs.tail else cs
  if digits ≠ [] && digits.all Char.isDigit then
    if digitsToNat digits < 2 ^ 64 then some (digitsToNat digits) else none
  else none

/-- The allowed unit set of `get_channel_quote` (`src/pos_server.rs`). -/
def allowed_units : List CurrencyUnit := [.Sat, .Usd]

/-- Response of the create handler (`ChannelQuoteResponse`); the opaque
serialized payment request string is not modelled. -/
structure ChannelQuoteResponse where
  checking_id : Uuid
deriving DecidableEq, Repr

/-- The create handler `get_channel_quote` (`src/pos_server.rs`).
`params_amount`/`params_unit` are the query parameters; `payment_id` is
the freshly generated `Uuid::new_v4` value, passed in explicitly.  The
external transport/payment-request builders are modelled as always
succeeding, and the unit parser never fails (see
`CurrencyUnit.from_str`), so the source's parse-failure branch for the
unit is unreachable.  Returns the store (unchanged on error) and the
handler result. -/
def get_channel_quote (params_amount params_unit : Option String)
    (payment_id : Uuid) (db : Db) :
    Db × Except PosError ChannelQuoteResponse :=
  match params_amount with
  | none => (db, .error (.InternalError "Missing amount parameter"))
  | some amount_str =>
    match parseU64 amount_str with
    | none => (db, .error (.InternalError "Invalid amount format"))
    | some amount =>
      let unit_result : Except PosError CurrencyUnit :=
        match params_unit with
        | some unit_str =>
          let unit := CurrencyUnit.from_str unit_str
          if unit ∈ allowed_units then .ok unit
          else .error (.UnsupportedCurrencyUnit unit_str allowed_units)
        | none => .ok CurrencyUnit.Sat
      match unit_result with
      | .error e => (db, .error e)
      | .ok unit =>
        let quote : QuoteInfo :=
          { id := payment_id, amount := amount
            state := QuoteState.Unpaid, unit := unit }
        (db.add_quote quote, .ok { checking_id := payment_id })

/-- Response of the check handler (`QuoteStateResponse`). -/
structure QuoteStateResponse where
  id : Uuid
  state : QuoteState
deriving DecidableEq, Repr

/-- The check handler `get_quote_state` (`src/pos_server.rs`): parse the
path identifier, read the quote, project id and state. -/
def get_quote_state (db : Db) (id_str : String) :
    Except PosError QuoteStateResponse :=
  match Uuid.from_str id_str with
  | none => .error (.InvalidUuid id_str)
  | some id =>
    match db.get_quote id with
    | none => .error (.QuoteNotFound id)
    | some q => .ok { id := q.id, state := q.state }

/-- The payment submission body (`cdk::nuts::PaymentRequestPayload`),
reduced to the fields the handler reads: the mint URL, the optional quote
id string, and the submitted proofs' face values. -/
structure PaymentRequestPayload where
  mint : String
  id : Option String
  proofs : List Nat
deriving DecidableEq, Repr

/-- `Amount::try_sum` over the proofs' face values: plain sum, failing on
64-bit overflow. -/
def try_sum (proofs : List Nat) : Option Nat :=
  if proofs.sum < 2 ^ 64 then some proofs.sum else none

/-- Outcome of one payment submission: the store afterwards, whether the
external redemption (`wallet.receive_proofs`) was invoked, and the
handler result. -/
structure PaymentResult where
  db : Db
  settle_invoked : Bool
  result : Except PosError Unit

/-- The payment handler `post_receive_payment` (`src/pos_server.rs`).
`accepted_mints` comes from the configured `CashuPosInfo`; the external
wallet lookup and proof redemption are modelled by the `wallet_found` and
`receive_ok` oracles.  Step order is exactly the source's: mint check,
id presence, id parse, store read, state check, proof summation, amount
comparison (as written in the source: it errors when the quote amount is
less than the received amount), wallet lookup, redemption, state update. -/
def post_receive_payment (accepted_mints : List String)
    (wallet_found receive_ok : Bool) (payload : PaymentRequestPayload)
    (db : Db) : PaymentResult :=
  if payload.mint ∈ accepted_mints then
    match payload.id with
    | none => ⟨db, false, .error (.InvalidUuid "missing")⟩
    | some id_str =>
      match Uuid.from_str id_str with
      | none => ⟨db, false, .error (.InvalidUuid id_str)⟩
      | some id =>
        match db.get_quote id with
        | none => ⟨db, false, .error (.QuoteNotFound id)⟩
        | some quote =>
          if quote.state ≠ QuoteState.Unpaid then
            ⟨db, false, .error (.InvalidQuoteState id quote.state)⟩
          else
            match try_sum payload.proofs with
            | none =>
                ⟨db, false, .error (.InternalError "Failed to sum proof amounts")⟩
            | some received_amount =>
              if quote.amount < received_amount then
                ⟨db, false,
                  .error (.InsufficientPayment quote.amount received_amount)⟩
              else if wallet_found = false then
                ⟨db, false, .error (.WalletError "Wallet not created")⟩
              else if receive_ok = false then
                ⟨db, true, .error (.ProofVerificationError "receive failed")⟩
              else
                match db.update_quote_state id QuoteState.Paid with
                | none => ⟨db, true, .error (.DatabaseError "Unknown quote")⟩
                | some (db2, _) => ⟨db2, true, .ok ()⟩
  else
    ⟨db, false, .error (.UnsupportedMint payload.mint)⟩

/-- Outcome alphabet of the spec's compare-and-set operation. -/
inductive CasOutcome where
  | ok (pre : QuoteInfo)
  | stateMismatch (current : QuoteInfo)
  | unknownQuote
deriving DecidableEq, Repr

/-- Modelled from the spec: `compareAndSetState(id, expectedState, newState)`
— within one write transaction, read the current quote, verify its state
equals `expected`, and only then write the quote with the new state,
returning the pre-transition quote; on a failed precondition change
nothing and report a `StateMismatch` with the current quote. -/
def compareAndSetStateSpec (db : Db) (id : Uuid)
    (expected newState : QuoteState) : Db × CasOutcome :=
  match db.get_quote id with
  | none => (db, .unknownQuote)
  | some q =>
    if q.state = expected then
      (Db.insert_row id { q with state := newState } db, .ok q)
    else
      (db, .stateMismatch q)

/-- The source's state-update operation viewed through the compare-and-set
outcome alphabet: `Db::update_quote_state` either fails on an unknown
quote or succeeds with the pre-transition quote — it has no expected-state
parameter and never reports a mismatch. -/
def update_quote_state_as_cas (db : Db) (id : Uuid) (newState : QuoteState) :
    Db × CasOutcome :=
  match db.update_quote_state id newState with
  | none => (db, .unknownQuote)
  | some (db2, pre) => (db2, .ok pre)

/-- Projection of the fields the spec declares immutable after creation. -/
def quoteKeyData (q : QuoteInfo) : Uuid × Nat × CurrencyUnit :=
  (q.id, q.amount, q.unit)

/-!
Interleaving model for concurrent payment submissions.  Each caller runs
`post_receive_payment` for the same quote with an accepted mint, a valid
id, the wallet present and redemption succeeding; its execution decomposes
into the handler's three shared-state-touching phases, each atomic:
the store read plus the pure validations on the value read (one read
transaction), the external proof redemption (`wallet.receive_proofs`,
counted in `settle_count`), and the state update (one write transaction).
-/

/-- Local state of one in-flight payment submission: program counter
(0 = before read/validate, 1 = validated, 2 = redeemed, 3 = committed,
4 = failed validation) and the quote copy it read. -/
structure Caller where
  pc : Nat
  quote : Option QuoteInfo
deriving DecidableEq, Repr

/-- Shared system state: the store, the number of times the external
redemption has been invoked, and the two callers. -/
structure Sys where
  db : Db
  settle_count : Nat
  a : Caller
  b : Caller
deriving DecidableEq, Repr

/-- One atomic step of a single caller targeting quote `id` with proofs
summing to `proof_sum`, mirroring the corresponding phase of
`post_receive_payment` (including its as-written amount comparison). -/
def caller_step (id : Uuid) (proof_sum : Nat) (db : Db) (c : Caller)
    (cnt : Nat) : Db × Caller × Nat :=
  match c.pc with
  | 0 =>
    match db.get_quote id with
    | none => (db, ⟨4, none⟩, cnt)
    | some q =>
      if q.state ≠ QuoteState.Unpaid then (db, ⟨4, none⟩, cnt)
      else if q.amount < proof_sum then (db, ⟨4, none⟩, cnt)
      else (db, ⟨1, some q⟩, cnt)
  | 1 => (db, ⟨2, c.quote⟩, cnt + 1)
  | 2 =>
    match db.update_quote_state id QuoteState.Paid with
    | none => (db, ⟨3, c.quote⟩, cnt)
    | some (db2, _) => (db2, ⟨3, c.quote⟩, cnt)
  | _ => (db, c, cnt)

/-- Scheduler step: `true` advances caller `a`, `false` advances `b`. -/
def sys_step (id : Uuid) (proof_sum : Nat) (choose_a : Bool) (s : Sys) :
    Sys :=
  if choose_a then
    match caller_step id proof_sum s.db s.a s.settle_count with
    | (db2, a2, cnt2) => { db := db2, settle_count := cnt2, a := a2, b := s.b }
  else
    match caller_step id proof_sum s.db s.b s.settle_count with
    | (db2, b2, cnt2) => { db := db2, settle_count := cnt2, a := s.a, b := b2 }

/-- Run a whole interleaving schedule. -/
def run_schedule (id : Uuid) (proof_sum : Nat) (sched : List Bool)
    (s : Sys) : Sys :=
  sched.foldl (fun st ch => sys_step id proof_sum ch st) s

/-! Concrete fixtures used by witnesses and counterexamples. -/

/-- A well-formed identifier string. -/
def uuidA : Uuid := "00000000-0000-0000-0000-000000000000"

/-- An outstanding 100-sat quote. -/
def quoteA : QuoteInfo :=
  { id := uuidA, amount := 100, state := QuoteState.Unpaid
    unit := CurrencyUnit.Sat }

/-- The same quote already settled. -/
def quoteAPaid : QuoteInfo :=
  { id := uuidA, amount := 100, state := QuoteState.Paid
    unit := CurrencyUnit.Sat }

/-- A store holding the outstanding quote. -/
def dbA : Db := [(uuidA, quoteA)]

/-- A store holding the settled quote. -/
def dbAPaid : Db := [(uuidA, quoteAPaid)]

/-- The configured accepted-mint allow-list. -/
def mintsA : List String := ["https://mint.example.com"]

/-- A payment submission for `quoteA` carrying proofs of a given sum. -/
def payloadA (proofs : List Nat) : PaymentRequestPayload :=
  { mint := "https://mint.example.com", id := some uuidA, proofs := proofs }

/-! Store lemmas. -/

/-- Looking up the key just inserted yields the inserted quote. -/
theorem Db.get_insert_self (id : Uuid) (q : QuoteInfo) :
    ∀ db : Db, (Db.insert_row id q db).get_quote id = some q := by
  intro db
  induction db with
  | nil => simp [Db.insert_row, Db.get_quote]
  | cons hd tl ih =>
    obtain ⟨k, v⟩ := hd
    by_cases h : k = id
    · simp [Db.insert_row, h, Db.get_quote]
    · simp [Db.insert_row, h, Db.get_quote, ih]

/-- Inserting one key leaves every other key's row unchanged. -/
theorem Db.get_insert_ne (id k : Uuid) (q : QuoteInfo) (h : k ≠ id) :
    ∀ db : Db, (Db.insert_row id q db).get_quote k = db.get_quote k := by
  intro db
  induction db with
  | nil => simp [Db.insert_row, Db.get_quote, Ne.symm h]
  | cons hd tl ih =>
    obtain ⟨k', v⟩ := hd
    by_cases h' : k' = id
    · subst h'
      simp [Db.insert_row, Db.get_quote, Ne.symm h]
    · simp [Db.insert_row, h', Db.get_quote, ih]

/-- A successful `update_quote_state` can only rewrite the state field:
every stored row's `(id, amount, unit)` projection is preserved. -/
theorem update_preserves_key_data (db : Db) (id : Uuid) (st : QuoteState)
    (db2 : Db) (pre : QuoteInfo)
    (h : db.update_quote_state id st = some (db2, pre)) (k : Uuid) :
    Option.map quoteKeyData (db2.get_quote k) =
      Option.map quoteKeyData (db.get_quote k) := by
  cases hq : db.get_quote id with
  | none => simp [Db.update_quote_state, hq] at h
  | some q =>
    simp only [Db.update_quote_state, hq, Option.some.injEq,
      Prod.mk.injEq] at h
    obtain ⟨h1, h2⟩ := h
    subst h1
    by_cases hk : k = id
    · subst hk
      rw [Db.get_insert_self, hq]
      rfl
    · rw [Db.get_insert_ne _ _ _ hk]

/-- C1 (counterexample): the store's state-update operation is not the
spec's `compareAndSetState`.  On a store whose quote is already `Paid`,
a compare-and-set with `expectedState = Unpaid` must change nothing and
report `StateMismatch`, but `Db::update_quote_state` reports success with
the pre-transition quote: the claimed expected-state check does not exist
in the code. -/
theorem update_quote_state_no_state_check :
    update_quote_state_as_cas dbAPaid uuidA QuoteState.Paid ≠
      compareAndSetStateSpec dbAPaid uuidA QuoteState.Unpaid
        QuoteState.Paid := by decide

/-- C1 (amended): for every quote id present in the store and every new
state, `Db::update_quote_state`, within one write transaction, reads the
stored quote and unconditionally writes it back with `state = newState`,
returning the pre-transition quote and leaving every other row unchanged;
it performs no expected-state comparison and reports no `StateMismatch`
(it fails only when the quote id is absent). -/
theorem update_quote_state_unconditional (db : Db) (id : Uuid)
    (st : QuoteState) (q : QuoteInfo) (h : db.get_quote id = some q) :
    ∃ db2, db.update_quote_state id st = some (db2, q) ∧
      db2.get_quote id = some { q with state := st } ∧
      ∀ k, k ≠ id → db2.get_quote k = db.get_quote k := by
  refine ⟨Db.insert_row id { q with state := st } db, ?_, ?_, ?_⟩
  · simp [Db.update_quote_state, h]
  · exact Db.get_insert_self id { q with state := st } db
  · intro k hk
    exact Db.get_insert_ne id k { q with state := st } hk db

/-- C1 witness: the amended statement applied to a store holding an
already-settled quote, exhibiting the unconditional write. -/
theorem update_quote_state_unconditional_wit :
    ∃ db2, dbAPaid.update_quote_state uuidA QuoteState.Unpaid =
        some (db2, quoteAPaid) ∧
      db2.get_quote uuidA = some { quoteAPaid with state := QuoteState.Unpaid } ∧
      ∀ k, k ≠ uuidA → db2.get_quote k = dbAPaid.get_quote k :=
  update_quote_state_unconditional dbAPaid uuidA QuoteState.Unpaid quoteAPaid
    (by decide)

/-- C2 (code evaluated at the failing input): the amount comparison in
`post_receive_payment` is written the wrong way round
(`Amount::from(quote.amount) < received_amount`).  For a 100-unit quote,
a submission whose proofs sum to 50 is NOT rejected as insufficient: the
redemption collaborator is invoked and the quote is marked `Paid`; while
a submission whose proofs sum to 150 is rejected with
`InsufficientPayment{expected 100, received 150}` without settlement. -/
theorem amount_check_reversed_underpayment_settles :
    (post_receive_payment mintsA true true (payloadA [50]) dbA).result =
        .ok () ∧
    (post_receive_payment mintsA true true (payloadA [50])
        dbA).settle_invoked = true ∧
    (post_receive_payment mintsA true true (payloadA [50])
        dbA).db.get_quote uuidA = some quoteAPaid ∧
    (post_receive_payment mintsA true true (payloadA [150]) dbA).result =
        .error (.InsufficientPayment 100 150) ∧
    (post_receive_payment mintsA true true (payloadA [150])
        dbA).settle_invoked = false := by
  refine ⟨by decide, by decide, by decide, by decide, by decide⟩

/-- C3 (code evaluated at the failing interleaving): two concurrent
settlement submissions for the same 100-unit quote, each with sufficient
proofs, scheduled so that both read-and-validate steps precede either
commit.  Both callers pass the `Unpaid` check, both invoke the external
redemption (`settle_count = 2` — the quote's value is redeemed twice) and
both commits succeed, because the state check and the state write are
separate transactions with no compare-and-set.  The claim that the quote
can never be paid twice fails on this schedule. -/
theorem concurrent_settlement_double_redeems :
    (run_schedule uuidA 100 [true, false, true, false, true, false]
        ⟨dbA, 0, ⟨0, none⟩, ⟨0, none⟩⟩).settle_count = 2 ∧
    (run_schedule uuidA 100 [true, false, true, false, true, false]
        ⟨dbA, 0, ⟨0, none⟩, ⟨0, none⟩⟩).a.pc = 3 ∧
    (run_schedule uuidA 100 [true, false, true, false, true, false]
        ⟨dbA, 0, ⟨0, none⟩, ⟨0, none⟩⟩).b.pc = 3 ∧
    (run_schedule uuidA 100 [true, false, true, false, true, false]
        ⟨dbA, 0, ⟨0, none⟩, ⟨0, none⟩⟩).db.get_quote uuidA =
      some quoteAPaid := by
  refine ⟨by decide, by decide, by decide, by decide⟩

/-- C4: for every stored quote whose state is not `Unpaid`, the payment
handler (accepted mint, well-formed id) fails with `InvalidQuoteState`
whatever the submitted proofs are — the conclusion holds for every proof
list, so no amount comparison influences it — with the store unchanged
and the settlement collaborator not invoked. -/
theorem state_error_precedes_amount_check (mints : List String)
    (w r : Bool) (payload : PaymentRequestPayload) (db : Db)
    (id_str : String) (id : Uuid) (quote : QuoteInfo)
    (hm : payload.mint ∈ mints) (hid : payload.id = some id_str)
    (hparse : Uuid.from_str id_str = some id)
    (hq : db.get_quote id = some quote)
    (hst : quote.state ≠ QuoteState.Unpaid) :
    post_receive_payment mints w r payload db =
      ⟨db, false, .error (.InvalidQuoteState id quote.state)⟩ := by
  simp [post_receive_payment, hm, hid, hparse, hq, hst]

/-- C4 witness: a 999999-value proof list against an already-paid quote
still surfaces the state error, not an amount error. -/
theorem state_error_precedes_amount_check_wit :
    post_receive_payment mintsA true true (payloadA [999999]) dbAPaid =
      ⟨dbAPaid, false, .error (.InvalidQuoteState uuidA QuoteState.Paid)⟩ :=
  state_error_precedes_amount_check mintsA true true (payloadA [999999])
    dbAPaid uuidA uuidA quoteAPaid (by decide) (by decide) (by decide)
    (by decide) (by decide)

/-- C5 (counterexample): the create handler does not reject non-positive
amounts and does not map parse failures to a 400-class `InvalidAmount`.
The amount string "0" is accepted and a quote with `amount = 0` is
persisted; the amount string "abc" is rejected with
`InternalError "Invalid amount format"`, which maps to HTTP 500. -/
theorem invalid_amount_not_400_and_zero_persisted :
    (get_channel_quote (some "0") none uuidA []).2 = .ok ⟨uuidA⟩ ∧
    (get_channel_quote (some "0") none uuidA []).1.get_quote uuidA =
      some { id := uuidA, amount := 0, state := QuoteState.Unpaid, unit := CurrencyUnit.Sat } ∧
    (get_channel_quote (some "abc") none uuidA []).2 =
      .error (.InternalError "Invalid amount format") ∧
    PosError.status (.InternalError "Invalid amount format") = 500 := by
  refine ⟨by decide, by decide, by decide, by decide⟩

/-- C5 (amended): a create request whose amount string does not parse as
a 64-bit unsigned integer is rejected with
`InternalError "Invalid amount format"` — mapped to HTTP 500, not a
400-class error — and no quote is persisted; amount strings that parse,
including "0", are not rejected by any positivity check. -/
theorem invalid_amount_internal_error_500 (a_str : String)
    (params_unit : Option String) (fid : Uuid) (db : Db)
    (h : parseU64 a_str = none) :
    get_channel_quote (some a_str) params_unit fid db =
      (db, .error (.InternalError "Invalid amount format")) ∧
    PosError.status (.InternalError "Invalid amount format") = 500 := by
  constructor
  · simp [get_channel_quote, h]
  · rfl

/-- C5 witness: the amended statement at the malformed amount "abc". -/
theorem invalid_amount_internal_error_500_wit :
    get_channel_quote (some "abc") none uuidA dbA =
      (dbA, .error (.InternalError "Invalid amount format")) ∧
    PosError.status (.InternalError "Invalid amount format") = 500 :=
  invalid_amount_internal_error_500 "abc" none uuidA dbA (by decide)

/-- C6: for every amount string parsing to a positive value and every
allowed unit — the unit defaulting to `sat` when the parameter is
omitted — the create handler persists and returns an id under which the
stored quote has `state = Unpaid` and exactly the requested amount and
unit, and the check handler reads that id back as `Unpaid`. -/
theorem create_then_check_unpaid_same_amount_unit (a_str : String)
    (params_unit : Option String) (amount : Nat) (unit : CurrencyUnit)
    (fid : Uuid) (db : Db)
    (ha : parseU64 a_str = some amount) (_hpos : 0 < amount)
    (hfid : isUuidString fid = true)
    (hu : (params_unit = none ∧ unit = CurrencyUnit.Sat) ∨
      ∃ s, params_unit = some s ∧ CurrencyUnit.from_str s = unit ∧
        unit ∈ allowed_units) :
    ∃ db2,
      get_channel_quote (some a_str) params_unit fid db = (db2, .ok ⟨fid⟩) ∧
      db2.get_quote fid = some { id := fid, amount := amount, state := QuoteState.Unpaid, unit := unit } ∧
      get_quote_state db2 fid =
        .ok { id := fid, state := QuoteState.Unpaid } := by
  have hfrom : Uuid.from_str fid = some fid := by
    simp [Uuid.from_str, hfid]
  rcases hu with ⟨hnone, huSat⟩ | ⟨s, hsome, hfs, hmem⟩
  · subst hnone
    subst huSat
    refine ⟨Db.insert_row fid { id := fid, amount := amount, state := QuoteState.Unpaid, unit := CurrencyUnit.Sat } db, ?_, ?_, ?_⟩
    · simp [get_channel_quote, ha, Db.add_quote]
    · exact Db.get_insert_self ..
    · simp [get_quote_state, hfrom, Db.get_insert_self]
  · subst hsome
    subst hfs
    refine ⟨Db.insert_row fid { id := fid, amount := amount, state := QuoteState.Unpaid, unit := CurrencyUnit.from_str s } db, ?_, ?_, ?_⟩
    · simp [get_channel_quote, ha, hmem, Db.add_quote]
    · exact Db.get_insert_self ..
    · simp [get_quote_state, hfrom, Db.get_insert_self]

/-- C6 witness: creating a 100-usd quote and reading it back as Unpaid. -/
theorem create_then_check_unpaid_same_amount_unit_wit :
    ∃ db2,
      get_channel_quote (some "100") (some "usd") uuidA [] =
        (db2, .ok ⟨uuidA⟩) ∧
      db2.get_quote uuidA = some { id := uuidA, amount := 100, state := QuoteState.Unpaid, unit := CurrencyUnit.Usd } ∧
      get_quote_state db2 uuidA =
        .ok { id := uuidA, state := QuoteState.Unpaid } :=
  create_then_check_unpaid_same_amount_unit "100" (some "usd") 100
    CurrencyUnit.Usd uuidA [] (by decide) (by decide) (by decide)
    (Or.inr ⟨"usd", rfl, by decide, by decide⟩)

/-- C7: a create request carrying a unit that parses outside the allowed
set `{sat, usd}` fails with `UnsupportedCurrencyUnit` listing that set,
and the store is returned exactly as it was — no quote is persisted. -/
theorem unsupported_unit_rejected_no_persist (a_str u_str : String)
    (amount : Nat) (fid : Uuid) (db : Db)
    (ha : parseU64 a_str = some amount)
    (hu : CurrencyUnit.from_str u_str ∉ allowed_units) :
    get_channel_quote (some a_str) (some u_str) fid db =
      (db, .error (.UnsupportedCurrencyUnit u_str allowed_units)) := by
  simp [get_channel_quote, ha, hu]

/-- C7 witness: the unit "eur" parses to a recognised unit outside the
allowed set and is rejected without persisting anything. -/
theorem unsupported_unit_rejected_no_persist_wit :
    get_channel_quote (some "100") (some "eur") uuidA dbA =
      (dbA, .error (.UnsupportedCurrencyUnit "eur" allowed_units)) :=
  unsupported_unit_rejected_no_persist "100" "eur" 100 uuidA dbA
    (by decide) (by decide)

/-- C8: for every identifier string that does not parse as a UUID, the
check handler fails with `InvalidUuid`, which maps to HTTP 400 (so never
404 or 500), and the result is the same for every store — the store is
never consulted. -/
theorem malformed_check_id_400_store_unread (s : String) (db : Db)
    (h : Uuid.from_str s = none) :
    get_quote_state db s = .error (.InvalidUuid s) ∧
    PosError.status (.InvalidUuid s) = 400 ∧
    ∀ db2 : Db, get_quote_state db2 s = get_quote_state db s := by
  refine ⟨by simp [get_quote_state, h], rfl, fun db2 => ?_⟩
  simp [get_quote_state, h]

/-- C8 witness: the malformed identifier "not-a-uuid". -/
theorem malformed_check_id_400_store_unread_wit :
    get_quote_state dbA "not-a-uuid" =
      .error (.InvalidUuid "not-a-uuid") ∧
    PosError.status (.InvalidUuid "not-a-uuid") = 400 ∧
    ∀ db2 : Db, get_quote_state db2 "not-a-uuid" =
      get_quote_state dbA "not-a-uuid" :=
  malformed_check_id_400_store_unread "not-a-uuid" dbA (by decide)

/-- The create handler either returns the store untouched or extends it
with one row keyed by the fresh payment id. -/
theorem get_channel_quote_db_cases (pa pu : Option String) (fid : Uuid)
    (db : Db) :
    (get_channel_quote pa pu fid db).1 = db ∨
    ∃ q : QuoteInfo, q.id = fid ∧
      (get_channel_quote pa pu fid db).1 = Db.insert_row fid q db := by
  cases pa with
  | none => left; rfl
  | some a_str =>
    cases hp : parseU64 a_str with
    | none => left; simp [get_channel_quote, hp]
    | some amount =>
      cases pu with
      | none =>
        right
        exact ⟨{ id := fid, amount := amount, state := QuoteState.Unpaid, unit := CurrencyUnit.Sat },
          rfl, by simp [get_channel_quote, hp, Db.add_quote]⟩
      | some u_str =>
        by_cases hu : CurrencyUnit.from_str u_str ∈ allowed_units
        · right
          exact ⟨{ id := fid, amount := amount, state := QuoteState.Unpaid, unit := CurrencyUnit.from_str u_str },
            rfl, by simp [get_channel_quote, hp, hu, Db.add_quote]⟩
        · left; simp [get_channel_quote, hp, hu]

/-- C9: no operation of the system rewrites a stored quote's
`(id, amount, unit)` projection.  The payment handler — whatever its
inputs and outcome — preserves the projection of every stored row; the
store's state-update operation, when it succeeds, preserves the
projection of every row (it modifies only the state field); and the
create handler leaves every row other than the freshly keyed one
untouched. -/
theorem quote_core_fields_immutable :
    (∀ (mints : List String) (w r : Bool) (payload : PaymentRequestPayload)
        (db : Db) (k : Uuid),
      Option.map quoteKeyData
          ((post_receive_payment mints w r payload db).db.get_quote k) =
        Option.map quoteKeyData (db.get_quote k)) ∧
    (∀ (db : Db) (id : Uuid) (st : QuoteState) (db2 : Db) (pre : QuoteInfo),
      db.update_quote_state id st = some (db2, pre) →
      ∀ k, Option.map quoteKeyData (db2.get_quote k) =
        Option.map quoteKeyData (db.get_quote k)) ∧
    (∀ (pa pu : Option String) (fid : Uuid) (db : Db) (k : Uuid), k ≠ fid →
      (get_channel_quote pa pu fid db).1.get_quote k = db.get_quote k) := by
  refine ⟨?_, ?_, ?_⟩
  · intro mints w r payload db k
    unfold post_receive_payment
    repeat' split
    all_goals first
      | rfl
      | (rename_i heq
         exact update_preserves_key_data _ _ _ _ _ heq k)
  · intro db id st db2 pre h k
    exact update_preserves_key_data db id st db2 pre h k
  · intro pa pu fid db k hk
    rcases get_channel_quote_db_cases pa pu fid db with h | ⟨q, hqid, h⟩
    · rw [h]
    · rw [h]
      exact Db.get_insert_ne fid k q hk db

/-- C9 witness: a concrete settlement rewrite keeps `(id, amount, unit)`,
and a concrete creation leaves an unrelated key's row unchanged. -/
theorem quote_core_fields_immutable_wit :
    (Option.map quoteKeyData (dbAPaid.get_quote uuidA) =
      Option.map quoteKeyData (dbA.get_quote uuidA)) ∧
    (get_channel_quote (some "100") none uuidA
        dbA).1.get_quote "11111111-1111-1111-1111-111111111111" =
      dbA.get_quote "11111111-1111-1111-1111-111111111111" :=
  ⟨quote_core_fields_immutable.2.1 dbA uuidA QuoteState.Paid dbAPaid quoteA
      (by decide) uuidA,
    quote_core_fields_immutable.2.2 (some "100") none uuidA dbA
      "11111111-1111-1111-1111-111111111111" (by decide)⟩

/-- C10: a payment submission from an accepted mint whose payload carries
no quote id fails with `InvalidUuid "missing"` (HTTP 400) with the store
returned unchanged, the settlement collaborator not invoked, and the same
error for every store — no store read happens first. -/
theorem missing_payment_id_400_before_store (mints : List String)
    (w r : Bool) (payload : PaymentRequestPayload) (db : Db)
    (hm : payload.mint ∈ mints) (hid : payload.id = none) :
    post_receive_payment mints w r payload db =
      ⟨db, false, .error (.InvalidUuid "missing")⟩ ∧
    PosError.status (.InvalidUuid "missing") = 400 ∧
    ∀ db2 : Db, (post_receive_payment mints w r payload db2).result =
      .error (.InvalidUuid "missing") := by
  refine ⟨?_, rfl, fun db2 => ?_⟩ <;>
    simp [post_receive_payment, hm, hid]

/-- C10 witness: an id-less payload from the accepted mint. -/
theorem missing_payment_id_400_before_store_wit :
    post_receive_payment mintsA true true
        { mint := "https://mint.example.com", id := none, proofs := [100] }
        dbA =
      ⟨dbA, false, .error (.InvalidUuid "missing")⟩ ∧
    PosError.status (.InvalidUuid "missing") = 400 ∧
    ∀ db2 : Db, (post_receive_payment mintsA true true
        { mint := "https://mint.example.com", id := none, proofs := [100] }
        db2).result = .error (.InvalidUuid "missing") :=
  missing_payment_id_400_before_store mintsA true true
    { mint := "https://mint.example.com", id := none, proofs := [100] }
    dbA (by decide) rfl

end CashuPos
